import Mathlib

/-!
# Verification of the Parlo scheduling and message-routing core

Shallow embedding of the deterministic decision logic of the Parlo
appointment-booking assistant:

* `normalize_phone_number` — from `src/app/utils/phone.py`.
* the appointment conflict detector `check_appointment_conflicts` — the
  module `app/services/scheduling.py` is not part of the source snapshot
  (only its tests in `src/tests/test_scheduling.py` and the listing in
  `app/services/__init__.py` refer to it), so it is modelled from the
  spec's contract (§4.2).
* the storage-layer overlap exclusion constraints — from the alembic
  migration `20260211_1200-f3a4b5c6d7e8_add_appointment_overlap_constraints.py`.
* the message router — from `src/app/services/message_router.py` together
  with `src/app/services/staff.py` and `src/app/services/organization.py`.

Strings of the Python code are modelled as `List Char` where character-level
operations matter (phone normalization) and as `String` where they are
opaque identifiers (the router). Timestamps are modelled as `Int` instants.
-/

namespace Parlo

/-! ## Phone normalization (`src/app/utils/phone.py`) -/

/-- The characters Python's `str.strip()` removes: exactly those for
which `str.isspace()` is true — tab, newline, vertical tab, form feed,
carriage return, the information separators U+1C-U+1F, space, U+85
(next line), U+A0 (no-break space), U+1680 (Ogham space mark), the
space range U+2000-U+200A, the line and paragraph separators U+2028 and
U+2029, U+202F (narrow no-break space), U+205F (medium mathematical
space), and U+3000 (ideographic space). -/
def isPyWhitespace (c : Char) : Bool :=
  c == ' ' || c == '\t' || c == '\n' || c == '\x0d' || c == '\x0b' || c == '\x0c'
  || c == '\x1c' || c == '\x1d' || c == '\x1e' || c == '\x1f'
  || c == '\x85' || c == '\xa0' || c == '\u1680'
  || (decide (0x2000 <= c.toNat) && decide (c.toNat <= 0x200a))
  || c == '\u2028' || c == '\u2029' || c == '\u202f' || c == '\u205f' || c == '\u3000'

/-- Python `s.strip()`: drop leading and trailing whitespace. -/
def pyStrip (s : List Char) : List Char :=
  ((s.dropWhile isPyWhitespace).reverse.dropWhile isPyWhitespace).reverse

/-- Python `s.replace(old, "")` for a single-character `old`:
remove every occurrence. -/
def removeAll (bad : Char) (s : List Char) : List Char :=
  s.filter (fun c => c != bad)

/-- Python `s.startswith(p)`. -/
def pyStartsWith : List Char → List Char → Bool
  | [], _ => true
  | _ :: _, [] => false
  | p :: ps, c :: cs => p == c && pyStartsWith ps cs

/-- Source of `normalize_phone_number` in `src/app/utils/phone.py`:

```python
phone = phone.strip().replace(" ", "").replace("-", "")
if phone.startswith("+"):
    return phone  # Already E.164
if phone.startswith(default_country_code) and len(phone) > 10:
    return f"+{phone}"  # Has country code, just missing "+"
return f"+{default_country_code}{phone}"  # Add country code
```

split into the cleaning step and the branch on the cleaned local
variable `phone` (here `p`). -/
def normalizeCleaned (p : List Char) (default_country_code : List Char) : List Char :=
  if pyStartsWith ['+'] p then p
  else if pyStartsWith default_country_code p && decide (p.length > 10) then '+' :: p
  else '+' :: (default_country_code ++ p)

/-- Model of `normalize_phone_number` from `src/app/utils/phone.py`: clean
(strip, drop spaces and hyphens), then branch on the cleaned string. -/
def normalize_phone_number (phone : List Char) (default_country_code : List Char) : List Char :=
  normalizeCleaned (removeAll '-' (removeAll ' ' (pyStrip phone))) default_country_code

/-! ## Appointment data model and conflict detection

`app/models/appointment.py` and `app/services/scheduling.py` are not in the
source snapshot; the fields and statuses below are those used by
`src/tests/test_scheduling.py` and by the overlap-constraint migration. -/

/-- Appointment lifecycle statuses (spec §3; `AppointmentStatus` used by
`src/tests/test_scheduling.py` and named in the migration's `status IN
('pending', 'confirmed')` guards). -/
inductive AppointmentStatus
  | pending
  | confirmed
  | cancelled
  | completed
  | no_show
deriving DecidableEq

/-- Non-terminal statuses still occupy the resource (spec glossary). -/
def AppointmentStatus.isNonTerminal : AppointmentStatus → Bool
  | .pending => true
  | .confirmed => true
  | _ => false

/-- The scheduling record, with the fields used by the conflict detector
and the exclusion constraints (`organization_id`, `parlo_user_id`,
`spot_id`, `scheduled_start`/`scheduled_end`, `status`). -/
structure Appointment where
  id : Nat
  organization_id : Nat
  parlo_user_id : Option Nat
  spot_id : Option Nat
  scheduled_start : Int
  scheduled_end : Int
  status : AppointmentStatus
deriving DecidableEq

/-- Half-open interval overlap (spec §4.2): `[aS, aE)` and `[bS, bE)`
overlap iff `aS < bE` and `bS < aE`. -/
def intervalsOverlap (aS aE bS bE : Int) : Bool :=
  decide (aS < bE) && decide (bS < aE)

/-- Whether an existing appointment shares a queried resource: same staff
member when `staff_id` is provided, **or** same spot when `spot_id` is
provided (spec §4.2). -/
def sharesResource (staff_id spot_id : Option Nat) (a : Appointment) : Bool :=
  (match staff_id with
   | some s => a.parlo_user_id == some s
   | none => false)
  ||
  (match spot_id with
   | some p => a.spot_id == some p
   | none => false)

/-- Modelled from the spec: `check_appointment_conflicts` lives in
`app/services/scheduling.py`, which is missing from the source snapshot
(only `src/tests/test_scheduling.py` and the `app/services/__init__.py`
listing refer to it). Contract from spec §4.2: if both `staff_id` and
`spot_id` are null, return empty immediately; otherwise return the
appointments of the same organization in a non-terminal state that share
the queried staff or spot, whose half-open interval overlaps the proposed
one, minus the appointment named by `exclude_appointment_id`. The database
is modelled as the list of appointment rows. -/
def check_appointment_conflicts (db : List Appointment) (organization_id : Nat)
    (staff_id spot_id : Option Nat) (start_time end_time : Int)
    (exclude_appointment_id : Option Nat) : List Appointment :=
  if staff_id.isNone && spot_id.isNone then []
  else
    db.filter (fun a =>
      a.organization_id == organization_id
      && a.status.isNonTerminal
      && (match exclude_appointment_id with
          | some e => a.id != e
          | none => true)
      && sharesResource staff_id spot_id a
      && intervalsOverlap start_time end_time a.scheduled_start a.scheduled_end)

/-! ## Storage-layer exclusion constraints

From `src/alembic/versions/20260211_1200-f3a4b5c6d7e8_add_appointment_overlap_constraints.py`.
The two Postgres `EXCLUDE USING gist` constraints reject any pair of rows
that both satisfy the constraint's `WHERE` clause and agree on
`organization_id`, agree on `parlo_user_id` (resp. `spot_id`), and whose
`tstzrange(scheduled_start, scheduled_end, '[)')` ranges intersect. An
empty range (`start >= end`) intersects nothing. -/

/-- Intersection of `tstzrange(s1, e1, '[)')` and `tstzrange(s2, e2, '[)')`
(`&&` in Postgres): both ranges non-empty and the half-open intervals
overlap. -/
def tstzrangeOverlap (s1 e1 s2 e2 : Int) : Bool :=
  decide (s1 < e1) && decide (s2 < e2) && decide (s1 < e2) && decide (s2 < e1)

/-- The `WHERE` guard of `no_overlapping_staff_appointments`:
`parlo_user_id IS NOT NULL AND status IN ('pending', 'confirmed')`. -/
def staffRowGuarded (a : Appointment) : Bool :=
  a.parlo_user_id.isSome && a.status.isNonTerminal

/-- The `WHERE` guard of `no_overlapping_spot_appointments`:
`spot_id IS NOT NULL AND status IN ('pending', 'confirmed')`. -/
def spotRowGuarded (a : Appointment) : Bool :=
  a.spot_id.isSome && a.status.isNonTerminal

/-- Two rows violate `no_overlapping_staff_appointments`: both guarded,
same organization, same staff member, intersecting `[start, end)` ranges. -/
def staffExclusionConflict (a b : Appointment) : Bool :=
  staffRowGuarded a && staffRowGuarded b
  && (a.organization_id == b.organization_id)
  && (a.parlo_user_id == b.parlo_user_id)
  && tstzrangeOverlap a.scheduled_start a.scheduled_end b.scheduled_start b.scheduled_end

/-- Two rows violate `no_overlapping_spot_appointments`. -/
def spotExclusionConflict (a b : Appointment) : Bool :=
  spotRowGuarded a && spotRowGuarded b
  && (a.organization_id == b.organization_id)
  && (a.spot_id == b.spot_id)
  && tstzrangeOverlap a.scheduled_start a.scheduled_end b.scheduled_start b.scheduled_end

/-- A row the storage layer will accept against the existing rows: it
conflicts with none of them under either exclusion constraint. -/
def rowAdmissible (db : List Appointment) (a : Appointment) : Bool :=
  db.all (fun b => !staffExclusionConflict a b && !spotExclusionConflict a b)

/-- Reachable states of the `appointments` table once the migration has
run: starting from empty, a row can be inserted only if the exclusion
constraints accept it, and a row can be updated (status transition or
reschedule) only if the updated row is accepted against all other rows —
exactly the checks Postgres performs on `INSERT` and `UPDATE`. Appointments
are never physically deleted (spec §3). -/
inductive Reachable : List Appointment → Prop
  | empty : Reachable []
  | insert (db : List Appointment) (a : Appointment) :
      Reachable db → rowAdmissible db a = true → Reachable (a :: db)
  | update (pre post : List Appointment) (a a' : Appointment) :
      Reachable (pre ++ a :: post) → rowAdmissible (pre ++ post) a' = true →
      Reachable (pre ++ a' :: post)

/-! ## Message router data model

From `src/app/services/message_router.py` and the models it uses. Models
missing from the snapshot (`conversation.py`, `message.py`,
`end_customer.py`, `organization.py` model file) are reconstructed from
their uses in the router, the services and `app/models/__init__.py`. -/

/-- Organization fields used by the router (`app/models/organization.py`
exists in the snapshot and carries these columns). -/
structure Organization where
  id : Nat
  name : String
  whatsapp_phone_number_id : String
deriving DecidableEq

/-- Model of `ParloUser` (aliased `Staff`), from `src/app/models/parlo_user.py`:
the columns the routing logic reads or the claims mention. -/
structure ParloUser where
  id : Nat
  organization_id : Nat
  name : String
  phone_number : String
  role : String
  is_active : Bool
  first_message_at : Option Int
deriving DecidableEq

/-- Model of `EndCustomer` (aliased `Customer`): belongs to an organization,
identified by phone, name filled in incrementally (spec §3). -/
structure EndCustomer where
  id : Nat
  organization_id : Nat
  phone_number : String
  name : Option String
deriving DecidableEq

/-- Conversation statuses; the router only uses `ACTIVE`. -/
inductive ConversationStatus
  | active
  | closed
deriving DecidableEq

/-- Conversation row, as created by `_get_or_create_conversation`. -/
structure Conversation where
  id : Nat
  organization_id : Nat
  customer_id : Nat
  status : ConversationStatus
  last_message_at : Int
deriving DecidableEq

inductive MessageDirection
  | inbound
  | outbound
deriving DecidableEq

inductive MessageSenderType
  | customer
  | staff
  | ai
deriving DecidableEq

/-- The `.value` string stored and reported for a sender type. -/
def MessageSenderType.value : MessageSenderType → String
  | .customer => "customer"
  | .staff => "staff"
  | .ai => "ai"

/-- Message row, as created by `_store_message` (`content_type` is always
`TEXT` there and is omitted). -/
structure Message where
  conversation_id : Option Nat
  direction : MessageDirection
  sender_type : MessageSenderType
  content : String
  whatsapp_message_id : String
deriving DecidableEq

/-- One outbound send through `WhatsAppClient.send_text_message`:
`(phone_number_id, to, message)` (`to` written `to_phone`, spec §6). -/
structure SentText where
  phone_number_id : String
  to_phone : String
  message : String
deriving DecidableEq

/-- The state a `route_message` call reads and writes: the relevant
database tables, the log of outbound sends through the WhatsApp client, a
fresh-id counter for created rows, and the current time. -/
structure RouterState where
  orgs : List Organization
  parlo_users : List ParloUser
  customers : List EndCustomer
  conversations : List Conversation
  messages : List Message
  sent : List SentText
  next_id : Nat
  now : Int
deriving DecidableEq

/-- Model of `get_organization_by_whatsapp_phone_id` from
`src/app/services/organization.py`: select the organization whose
`whatsapp_phone_number_id` matches. -/
def get_organization_by_whatsapp_phone_id (st : RouterState) (phone_number_id : String) :
    Option Organization :=
  st.orgs.find? (fun o => o.whatsapp_phone_number_id == phone_number_id)

/-- Model of `get_staff_by_phone` from `src/app/services/staff.py`: select the
staff member of the organization with this phone number **and**
`is_active == True`. -/
def get_staff_by_phone (st : RouterState) (organization_id : Nat) (phone_number : String) :
    Option ParloUser :=
  st.parlo_users.find? (fun u =>
    u.organization_id == organization_id
    && u.phone_number == phone_number
    && u.is_active)

/-- Modelled from the spec: `app/services/customer.py`
(`get_or_create_customer`) is missing from the source snapshot (the router
imports it as `customer_service`). Spec §4.1: look up the Customer by
(org, phone); if absent create it with the sender's display name; use the
display name only to seed a not-yet-set name, never overwriting an
existing one. Returns the customer and the updated state. -/
def get_or_create_customer (st : RouterState) (organization_id : Nat)
    (phone_number : String) (name : Option String) : EndCustomer × RouterState :=
  match st.customers.find? (fun c =>
      c.organization_id == organization_id && c.phone_number == phone_number) with
  | some c =>
      if c.name.isNone && name.isSome then
        let c' : EndCustomer := { c with name := name }
        (c', { st with customers := st.customers.map (fun x => if x == c then c' else x) })
      else
        (c, st)
  | none =>
      let c : EndCustomer :=
        { id := st.next_id, organization_id := organization_id,
          phone_number := phone_number, name := name }
      (c, { st with customers := c :: st.customers, next_id := st.next_id + 1 })

/-- Model of `MessageRouter._message_already_processed`: a `Message` row with this
`whatsapp_message_id` already exists. -/
def message_already_processed (st : RouterState) (message_id : String) : Bool :=
  st.messages.any (fun m => m.whatsapp_message_id == message_id)

/-- Model of `MessageRouter._get_or_create_conversation`: find the active
conversation of (organization, customer), updating its
`last_message_at`; otherwise create a new active one. -/
def get_or_create_conversation (st : RouterState) (organization_id customer_id : Nat) :
    Conversation × RouterState :=
  match st.conversations.find? (fun cv =>
      cv.organization_id == organization_id
      && cv.customer_id == customer_id
      && cv.status == ConversationStatus.active) with
  | some cv =>
      let cv' : Conversation := { cv with last_message_at := st.now }
      (cv', { st with conversations := st.conversations.map (fun x => if x == cv then cv' else x) })
  | none =>
      let cv : Conversation :=
        { id := st.next_id, organization_id := organization_id,
          customer_id := customer_id, status := ConversationStatus.active,
          last_message_at := st.now }
      (cv, { st with conversations := cv :: st.conversations, next_id := st.next_id + 1 })

/-- Model of `MessageRouter._store_message`: add a `Message` row. -/
def store_message (st : RouterState) (message_id : String)
    (direction : MessageDirection) (sender_type : MessageSenderType)
    (content : String) (conversation_id : Option Nat) : Message × RouterState :=
  let m : Message :=
    { conversation_id := conversation_id, direction := direction,
      sender_type := sender_type, content := content,
      whatsapp_message_id := message_id }
  (m, { st with messages := m :: st.messages })

/-- Model of `WhatsAppClient.send_text_message` as seen by the router: append the
send to the outbound log. -/
def send_text_message (st : RouterState) (phone_number_id to_phone message : String) : RouterState :=
  { st with sent := st.sent ++ [⟨phone_number_id, to_phone, message⟩] }

/-- Model of `MessageRouter._handle_staff_message`: store the inbound message (no
conversation attached) and build the staff acknowledgment text. -/
def handle_staff_message (st : RouterState) (staff : ParloUser)
    (message_content sender_phone message_id : String) : String × RouterState :=
  let _ := sender_phone
  let stored := store_message st message_id MessageDirection.inbound
      MessageSenderType.staff message_content none
  let response :=
    "Hola " ++ staff.name ++ "! 👋\n\n"
    ++ "Soy Yume, tu asistente. Reconozco que eres parte del equipo.\n\n"
    ++ "Pronto podrás:\n• Ver tu agenda del día\n• Bloquear tiempo personal\n"
    ++ "• Marcar citas completadas\n• Registrar walk-ins\n\n"
    ++ "(Por ahora estoy en modo de prueba)"
  (response, stored.2)

/-- Model of `MessageRouter._handle_customer_message`: get or create the active
conversation, store the inbound message against it, and build the customer
acknowledgment text. -/
def handle_customer_message (st : RouterState) (org : Organization)
    (customer : EndCustomer) (message_content sender_phone message_id : String) :
    String × RouterState :=
  let _ := sender_phone
  let conv := get_or_create_conversation st org.id customer.id
  let stored := store_message conv.2 message_id MessageDirection.inbound
      MessageSenderType.customer message_content (some conv.1.id)
  let customer_name := customer.name.getD "cliente"
  let response :=
    "¡Hola " ++ customer_name ++ "! 👋\n\n"
    ++ "Bienvenido a " ++ org.name ++ ". Soy Yume, tu asistente virtual.\n\n"
    ++ "Pronto podrás:\n• Agendar citas\n• Reprogramar citas\n"
    ++ "• Cancelar citas\n• Ver tus próximas citas\n\n"
    ++ "(Por ahora estoy en modo de prueba)"
  (response, stored.2)

/-- The `dict[str, str]` returned by `route_message`, keyed by its
`"status"` entry: `{"status": "duplicate", "message_id": ...}`,
`{"status": "error", "reason": ..., "phone_number_id": ...}`, or
`{"status": "success", "sender_type": ..., "organization_id": ...}`. -/
inductive RouteResult
  | duplicate (message_id : String)
  | error (reason : String) (phone_number_id : String)
  | success (sender_type : String) (organization_id : Nat)
deriving DecidableEq

/-- The `"status"` entry of the returned dict. -/
def RouteResult.status : RouteResult → String
  | .duplicate _ => "duplicate"
  | .error _ _ => "error"
  | .success _ _ => "success"

/-- Model of `MessageRouter.route_message` with the two conversation handlers kept
as parameters, in the `Except` monad: any exception a handler raises
propagates out of `route_message` unchanged, because the Python body has
no `try`/`except`. Control flow of the source: dedup short-circuit;
organization lookup, returning the `unknown_organization` error dict when
none matches; staff lookup (active only) with the source's redundant
`staff.is_active` re-check; handler call; then exactly one
`send_text_message` with the handler's response. -/
def route_message_with
    (staffH : RouterState → Organization → ParloUser → String → String → String →
      Except String (String × RouterState))
    (custH : RouterState → Organization → EndCustomer → String → String → String →
      Except String (String × RouterState))
    (st : RouterState) (phone_number_id sender_phone message_id message_content : String)
    (sender_name : Option String) : Except String (RouteResult × RouterState) :=
  if message_already_processed st message_id then
    Except.ok (RouteResult.duplicate message_id, st)
  else
    match get_organization_by_whatsapp_phone_id st phone_number_id with
    | none => Except.ok (RouteResult.error "unknown_organization" phone_number_id, st)
    | some org =>
      match get_staff_by_phone st org.id sender_phone with
      | some staff =>
        if staff.is_active then
          match staffH st org staff message_content sender_phone message_id with
          | Except.error e => Except.error e
          | Except.ok handled =>
            let st'' := send_text_message handled.2 phone_number_id sender_phone handled.1
            Except.ok (RouteResult.success MessageSenderType.staff.value org.id, st'')
        else
          let cr := get_or_create_customer st org.id sender_phone sender_name
          match custH cr.2 org cr.1 message_content sender_phone message_id with
          | Except.error e => Except.error e
          | Except.ok handled =>
            let st3 := send_text_message handled.2 phone_number_id sender_phone handled.1
            Except.ok (RouteResult.success MessageSenderType.customer.value org.id, st3)
      | none =>
        let cr := get_or_create_customer st org.id sender_phone sender_name
        match custH cr.2 org cr.1 message_content sender_phone message_id with
        | Except.error e => Except.error e
        | Except.ok handled =>
          let st3 := send_text_message handled.2 phone_number_id sender_phone handled.1
          Except.ok (RouteResult.success MessageSenderType.customer.value org.id, st3)

/-- Model of `MessageRouter.route_message` with the source's concrete handlers,
which are total (they only store a row and build a string), so the result
is the plain routing dict plus the new state. -/
def route_message (st : RouterState)
    (phone_number_id sender_phone message_id message_content : String)
    (sender_name : Option String) : RouteResult × RouterState :=
  if message_already_processed st message_id then
    (RouteResult.duplicate message_id, st)
  else
    match get_organization_by_whatsapp_phone_id st phone_number_id with
    | none => (RouteResult.error "unknown_organization" phone_number_id, st)
    | some org =>
      match get_staff_by_phone st org.id sender_phone with
      | some staff =>
        if staff.is_active then
          let handled := handle_staff_message st staff message_content sender_phone message_id
          let st'' := send_text_message handled.2 phone_number_id sender_phone handled.1
          (RouteResult.success MessageSenderType.staff.value org.id, st'')
        else
          let cr := get_or_create_customer st org.id sender_phone sender_name
          let handled :=
            handle_customer_message cr.2 org cr.1 message_content sender_phone message_id
          let st3 := send_text_message handled.2 phone_number_id sender_phone handled.1
          (RouteResult.success MessageSenderType.customer.value org.id, st3)
      | none =>
        let cr := get_or_create_customer st org.id sender_phone sender_name
        let handled :=
          handle_customer_message cr.2 org cr.1 message_content sender_phone message_id
        let st3 := send_text_message handled.2 phone_number_id sender_phone handled.1
        (RouteResult.success MessageSenderType.customer.value org.id, st3)

/-! ## Concrete fixtures for witnesses -/

/-- A confirmed appointment of organization 1 for staff member 3,
scheduled 10:00–10:30 (minutes 600–630), as in the test scenarios of
`src/tests/test_scheduling.py`. -/
def appt600 : Appointment :=
  { id := 1, organization_id := 1, parlo_user_id := some 3, spot_id := none,
    scheduled_start := 600, scheduled_end := 630, status := AppointmentStatus.confirmed }

/-- A pending appointment of the same staff member, back-to-back after
`appt600` (minutes 630–660). -/
def appt630 : Appointment :=
  { id := 2, organization_id := 1, parlo_user_id := some 3, spot_id := none,
    scheduled_start := 630, scheduled_end := 660, status := AppointmentStatus.pending }

/-- A provisioned organization. -/
def orgFixture : Organization :=
  { id := 10, name := "Don Pedro", whatsapp_phone_number_id := "PNID_10" }

/-- An active staff member of `orgFixture` who has never messaged
(`first_message_at` null). -/
def staffPedro : ParloUser :=
  { id := 20, organization_id := 10, name := "Pedro",
    phone_number := "+525511122233", role := "owner", is_active := true,
    first_message_at := none }

/-- An inactive (soft-deleted) staff member of `orgFixture`. -/
def staffInactiveAna : ParloUser :=
  { id := 21, organization_id := 10, name := "Ana",
    phone_number := "+525599988877", role := "employee", is_active := false,
    first_message_at := none }

/-- A router state with one provisioned organization, one active and one
inactive staff member, and nothing processed yet. -/
def stOrg : RouterState :=
  { orgs := [orgFixture], parlo_users := [staffPedro, staffInactiveAna],
    customers := [], conversations := [], messages := [], sent := [],
    next_id := 100, now := 1000 }

/-- An empty router state: no organization is registered. -/
def stEmpty : RouterState :=
  { orgs := [], parlo_users := [], customers := [], conversations := [],
    messages := [], sent := [], next_id := 0, now := 0 }

end Parlo

namespace Parlo

/-! ## Theorems -/

/-! ### Helper lemmas -/

theorem dropWhile_eq_self_of_forall (p : Char → Bool) (l : List Char)
    (h : ∀ c ∈ l, p c = false) : l.dropWhile p = l := by
  cases l with
  | nil => rfl
  | cons a as => simp [List.dropWhile, h a (List.mem_cons_self a as)]

theorem pyStrip_eq_self (l : List Char) (h : ∀ c ∈ l, isPyWhitespace c = false) :
    pyStrip l = l := by
  unfold pyStrip
  rw [dropWhile_eq_self_of_forall _ _ h]
  rw [dropWhile_eq_self_of_forall _ _ (fun c hc => h c (List.mem_reverse.mp hc))]
  exact List.reverse_reverse l

theorem removeAll_eq_self (bad : Char) (l : List Char) (h : ∀ c ∈ l, c ≠ bad) :
    removeAll bad l = l := by
  unfold removeAll
  exact List.filter_eq_self.mpr (fun c hc => by simpa using h c hc)

theorem pyStartsWith_plus (p : List Char) (h : pyStartsWith ['+'] p = true) :
    p.head? = some '+' := by
  cases p with
  | nil => simp [pyStartsWith] at h
  | cons c cs =>
    simp only [pyStartsWith, Bool.and_eq_true, beq_iff_eq] at h
    simp only [List.head?_cons, Option.some.injEq]
    exact h.1.symm

theorem head_plus_pyStartsWith (p : List Char) (h : p.head? = some '+') :
    pyStartsWith ['+'] p = true := by
  cases p with
  | nil => simp at h
  | cons c cs =>
    simp only [List.head?_cons, Option.some.injEq] at h
    simp [pyStartsWith, h]

theorem normalizeCleaned_head_plus (p cc : List Char) :
    (normalizeCleaned p cc).head? = some '+' := by
  unfold normalizeCleaned
  by_cases h1 : pyStartsWith ['+'] p = true
  · simpa [h1] using pyStartsWith_plus _ h1
  · by_cases h2 : (pyStartsWith cc p && decide (p.length > 10)) = true
    · simp [h1, h2]
    · simp [h1, h2]

/-! ### C10 — phone normalization -/

/-- C10 (amended): `normalize_phone_number` always returns a string that
begins with `'+'`; and whenever its output contains no whitespace
character and no `'-'`, re-applying the function to that output (with the
same default country code) returns it unchanged, because a `'+'`-prefixed
input that strip/replace leave untouched is returned as-is. (Unrestricted
idempotence fails: see the counterexample.) -/
theorem c10_normalize_plus_and_conditional_idempotence (phone cc : List Char) :
    (normalize_phone_number phone cc).head? = some '+' ∧
    ((∀ c ∈ normalize_phone_number phone cc, isPyWhitespace c = false ∧ c ≠ '-') →
      normalize_phone_number (normalize_phone_number phone cc) cc =
        normalize_phone_number phone cc) := by
  constructor
  · exact normalizeCleaned_head_plus _ _
  · intro h
    have hplus : (normalize_phone_number phone cc).head? = some '+' :=
      normalizeCleaned_head_plus _ _
    have hstrip : pyStrip (normalize_phone_number phone cc) = normalize_phone_number phone cc :=
      pyStrip_eq_self _ (fun c hc => (h c hc).1)
    have hspace : removeAll ' ' (normalize_phone_number phone cc) =
        normalize_phone_number phone cc :=
      removeAll_eq_self _ _ (fun c hc hcontra => by
        have := (h c hc).1
        rw [hcontra] at this
        simp [isPyWhitespace] at this)
    have hdash : removeAll '-' (normalize_phone_number phone cc) =
        normalize_phone_number phone cc :=
      removeAll_eq_self _ _ (fun c hc => (h c hc).2)
    conv_lhs => rw [normalize_phone_number, hstrip, hspace, hdash]
    rw [normalizeCleaned, if_pos (head_plus_pyStartsWith _ hplus)]

/-- C10 witness: the amended theorem applied at the concrete input
`"5512345678"` with country code `"52"`. -/
theorem c10_witness :
    (normalize_phone_number ['5', '5', '1', '2', '3', '4', '5', '6', '7', '8']
        ['5', '2']).head? = some '+' ∧
    normalize_phone_number
        (normalize_phone_number ['5', '5', '1', '2', '3', '4', '5', '6', '7', '8'] ['5', '2'])
        ['5', '2'] =
      normalize_phone_number ['5', '5', '1', '2', '3', '4', '5', '6', '7', '8'] ['5', '2'] :=
  ⟨(c10_normalize_plus_and_conditional_idempotence _ _).1,
   (c10_normalize_plus_and_conditional_idempotence _ _).2 (by decide)⟩

/-- C10 counterexample: on input `"1\t-"` with country code `"52"`, the
first application yields `"+521\t"` (the interior tab survives the
space/hyphen removal and becomes trailing), but the second application
strips the now-trailing tab, so applying the function to its own output
does **not** return that output unchanged. -/
theorem c10_counterexample :
    normalize_phone_number ['1', '\t', '-'] ['5', '2'] = ['+', '5', '2', '1', '\t'] ∧
    normalize_phone_number (normalize_phone_number ['1', '\t', '-'] ['5', '2']) ['5', '2'] =
      ['+', '5', '2', '1'] ∧
    normalize_phone_number (normalize_phone_number ['1', '\t', '-'] ['5', '2']) ['5', '2'] ≠
      normalize_phone_number ['1', '\t', '-'] ['5', '2'] := by
  refine ⟨by decide, by decide, by decide⟩

/-! ### Conflict detector lemmas -/

theorem mem_check_appointment_conflicts (db : List Appointment) (org : Nat)
    (staff_id spot_id : Option Nat) (s e : Int) (excl : Option Nat) (a : Appointment)
    (hns : (staff_id.isNone && spot_id.isNone) = false) :
    a ∈ check_appointment_conflicts db org staff_id spot_id s e excl ↔
      a ∈ db ∧
        (a.organization_id == org
         && a.status.isNonTerminal
         && (match excl with
             | some x => a.id != x
             | none => true)
         && sharesResource staff_id spot_id a
         && intervalsOverlap s e a.scheduled_start a.scheduled_end) = true := by
  unfold check_appointment_conflicts
  rw [if_neg (by simp [hns])]
  exact List.mem_filter

/-- C1: for every proposed half-open interval `[s, e)` and every existing
non-terminal appointment of the queried organization sharing a queried
resource, `check_appointment_conflicts` reports it as a conflict **iff**
`s < b.scheduled_end ∧ b.scheduled_start < e`; in particular a
back-to-back appointment (its end equals the proposed start, or its start
equals the proposed end) is never reported. -/
theorem c1_conflict_iff_half_open_overlap (db : List Appointment) (org : Nat)
    (staff_id spot_id : Option Nat) (s e : Int) (b : Appointment)
    (hmem : b ∈ db) (horg : b.organization_id = org)
    (hst : b.status.isNonTerminal = true)
    (hres : sharesResource staff_id spot_id b = true) :
    (b ∈ check_appointment_conflicts db org staff_id spot_id s e none ↔
      (s < b.scheduled_end ∧ b.scheduled_start < e)) ∧
    ((b.scheduled_end = s ∨ b.scheduled_start = e) →
      b ∉ check_appointment_conflicts db org staff_id spot_id s e none) := by
  have hns : (staff_id.isNone && spot_id.isNone) = false := by
    cases staff_id with
    | some x => rfl
    | none =>
      cases spot_id with
      | some y => rfl
      | none => simp [sharesResource] at hres
  have hiff := mem_check_appointment_conflicts db org staff_id spot_id s e none b hns
  constructor
  · rw [hiff]
    simp [hmem, horg, hst, hres, intervalsOverlap]
  · intro hadj hcontra
    rw [hiff] at hcontra
    have hov := hcontra.2
    simp only [horg, hst, hres, intervalsOverlap, Bool.and_eq_true, beq_iff_eq,
      decide_eq_true_eq] at hov
    rcases hadj with hend | hstart
    · exact absurd hov.2.1 (by omega)
    · exact absurd hov.2.2 (by omega)

/-- C1 witness: `appt600` (10:00–10:30, staff 3, confirmed) against a
proposed 10:15–10:45 slot for staff 3: it is a conflict, and the
back-to-back hypothesis is refutable there. -/
theorem c1_witness :
    (appt600 ∈ [appt600] ∧ appt600.organization_id = 1 ∧
      appt600.status.isNonTerminal = true ∧
      sharesResource (some 3) none appt600 = true) ∧
    ((appt600 ∈ check_appointment_conflicts [appt600] 1 (some 3) none 615 645 none ↔
        ((615 : Int) < appt600.scheduled_end ∧ appt600.scheduled_start < 645)) ∧
     ((appt600.scheduled_end = 615 ∨ appt600.scheduled_start = 645) →
        appt600 ∉ check_appointment_conflicts [appt600] 1 (some 3) none 615 645 none)) :=
  ⟨⟨by decide, by decide, by decide, by decide⟩,
   c1_conflict_iff_half_open_overlap [appt600] 1 (some 3) none 615 645 appt600
     (by decide) (by decide) (by decide) (by decide)⟩

/-- C3: every appointment reported by `check_appointment_conflicts` is in
status pending or confirmed and belongs to the queried organization; in
particular an appointment in a terminal status (cancelled, completed or
no_show) never appears in the conflict list, however its interval overlaps
the queried one. -/
theorem c3_terminal_states_never_reported (db : List Appointment) (org : Nat)
    (staff_id spot_id : Option Nat) (s e : Int) (excl : Option Nat) (a : Appointment)
    (ha : a ∈ check_appointment_conflicts db org staff_id spot_id s e excl) :
    (a.status = AppointmentStatus.pending ∨ a.status = AppointmentStatus.confirmed) ∧
    a.organization_id = org ∧
    a.status ≠ AppointmentStatus.cancelled ∧
    a.status ≠ AppointmentStatus.completed ∧
    a.status ≠ AppointmentStatus.no_show := by
  by_cases hns : (staff_id.isNone && spot_id.isNone) = true
  · unfold check_appointment_conflicts at ha
    rw [if_pos hns] at ha
    exact absurd ha (List.not_mem_nil a)
  · rw [mem_check_appointment_conflicts db org staff_id spot_id s e excl a
      (Bool.eq_false_iff.mpr hns)] at ha
    have hcond := ha.2
    simp only [Bool.and_eq_true, beq_iff_eq] at hcond
    have hnt : a.status.isNonTerminal = true := hcond.1.1.1.2
    have horg : a.organization_id = org := hcond.1.1.1.1
    cases hstat : a.status <;> rw [hstat] at hnt <;>
      simp [AppointmentStatus.isNonTerminal] at hnt <;>
      exact ⟨by simp [hstat], horg, by simp [hstat], by simp [hstat], by simp [hstat]⟩

/-- C3 witness: the theorem applied to the conflict that `appt600`
produces for the 10:15–10:45 query of staff 3. -/
theorem c3_witness :
    appt600 ∈ check_appointment_conflicts [appt600] 1 (some 3) none 615 645 none ∧
    ((appt600.status = AppointmentStatus.pending ∨
        appt600.status = AppointmentStatus.confirmed) ∧
      appt600.organization_id = 1 ∧
      appt600.status ≠ AppointmentStatus.cancelled ∧
      appt600.status ≠ AppointmentStatus.completed ∧
      appt600.status ≠ AppointmentStatus.no_show) :=
  ⟨by decide,
   c3_terminal_states_never_reported [appt600] 1 (some 3) none 615 645 none appt600
     (by decide)⟩

/-- C7: checking an appointment `A`'s own organization, staff, spot and
original `[start, end)` interval with `exclude_appointment_id = A.id`
never reports `A` itself; and when `A` is the only appointment stored,
the returned conflict list is empty. -/
theorem c7_exclude_self_never_reported (db : List Appointment) (A : Appointment) :
    A ∉ check_appointment_conflicts db A.organization_id A.parlo_user_id A.spot_id
        A.scheduled_start A.scheduled_end (some A.id) ∧
    (db = [A] →
      check_appointment_conflicts db A.organization_id A.parlo_user_id A.spot_id
        A.scheduled_start A.scheduled_end (some A.id) = []) := by
  have hself : ∀ db' : List Appointment,
      A ∉ check_appointment_conflicts db' A.organization_id A.parlo_user_id A.spot_id
        A.scheduled_start A.scheduled_end (some A.id) := by
    intro db' hcontra
    by_cases hns : (A.parlo_user_id.isNone && A.spot_id.isNone) = true
    · unfold check_appointment_conflicts at hcontra
      rw [if_pos hns] at hcontra
      exact absurd hcontra (List.not_mem_nil A)
    · rw [mem_check_appointment_conflicts _ _ _ _ _ _ _ _ (Bool.eq_false_iff.mpr hns)] at hcontra
      have hcond := hcontra.2
      simp at hcond
  refine ⟨hself db, fun hdb => ?_⟩
  subst hdb
  by_cases hns : (A.parlo_user_id.isNone && A.spot_id.isNone) = true
  · unfold check_appointment_conflicts
    rw [if_pos hns]
  · unfold check_appointment_conflicts
    rw [if_neg hns]
    simp

/-- C7 witness: `appt600` rechecked against its own slot with
self-exclusion, over the database containing only `appt600`. -/
theorem c7_witness :
    appt600 ∉ check_appointment_conflicts [appt600] appt600.organization_id
        appt600.parlo_user_id appt600.spot_id appt600.scheduled_start
        appt600.scheduled_end (some appt600.id) ∧
    check_appointment_conflicts [appt600] appt600.organization_id
        appt600.parlo_user_id appt600.spot_id appt600.scheduled_start
        appt600.scheduled_end (some appt600.id) = [] :=
  ⟨(c7_exclude_self_never_reported [appt600] appt600).1,
   (c7_exclude_self_never_reported [appt600] appt600).2 rfl⟩

/-! ### C2 — storage-layer overlap invariant -/

theorem tstzrangeOverlap_comm (s1 e1 s2 e2 : Int) :
    tstzrangeOverlap s1 e1 s2 e2 = tstzrangeOverlap s2 e2 s1 e1 := by
  unfold tstzrangeOverlap
  by_cases h1 : s1 < e1 <;> by_cases h2 : s2 < e2 <;>
    by_cases h3 : s1 < e2 <;> by_cases h4 : s2 < e1 <;>
    simp [h1, h2, h3, h4]

theorem staffExclusionConflict_comm (a b : Appointment) :
    staffExclusionConflict a b = staffExclusionConflict b a := by
  unfold staffExclusionConflict
  rw [tstzrangeOverlap_comm]
  by_cases hga : staffRowGuarded a <;> by_cases hgb : staffRowGuarded b <;>
    simp [hga, hgb, BEq.comm, Bool.and_assoc, Bool.and_comm, Bool.and_left_comm]

theorem spotExclusionConflict_comm (a b : Appointment) :
    spotExclusionConflict a b = spotExclusionConflict b a := by
  unfold spotExclusionConflict
  rw [tstzrangeOverlap_comm]
  by_cases hga : spotRowGuarded a <;> by_cases hgb : spotRowGuarded b <;>
    simp [hga, hgb, BEq.comm, Bool.and_assoc, Bool.and_comm, Bool.and_left_comm]

/-- The pairwise no-conflict relation maintained by the two exclusion
constraints. -/
def NoMutualConflict (a b : Appointment) : Prop :=
  staffExclusionConflict a b = false ∧ spotExclusionConflict a b = false

theorem noMutualConflict_symm : Symmetric NoMutualConflict := by
  intro a b h
  exact ⟨staffExclusionConflict_comm b a ▸ h.1, spotExclusionConflict_comm b a ▸ h.2⟩

theorem rowAdmissible_noMutualConflict {db : List Appointment} {a : Appointment}
    (h : rowAdmissible db a = true) : ∀ b ∈ db, NoMutualConflict a b := by
  intro b hb
  have := (List.all_eq_true.mp h) b hb
  simp only [Bool.and_eq_true, Bool.not_eq_true'] at this
  exact ⟨this.1, this.2⟩

/-- C2: in every reachable state of the `appointments` table, no two rows
that are both non-terminal (pending or confirmed), of the same
organization, and assigned to the same staff member have overlapping
half-open `[scheduled_start, scheduled_end)` intervals — and likewise for
two rows sharing the same spot. The invariant is enforced by the guards of
the storage-layer step relation (`Reachable`), which are exactly the
migration's exclusion constraints, not by any application pre-check. -/
theorem c2_reachable_no_overlap (db : List Appointment) (h : Reachable db) :
    db.Pairwise (fun x y =>
      ¬(x.status.isNonTerminal = true ∧ y.status.isNonTerminal = true ∧
        x.organization_id = y.organization_id ∧
        x.parlo_user_id.isSome = true ∧ x.parlo_user_id = y.parlo_user_id ∧
        tstzrangeOverlap x.scheduled_start x.scheduled_end
          y.scheduled_start y.scheduled_end = true) ∧
      ¬(x.status.isNonTerminal = true ∧ y.status.isNonTerminal = true ∧
        x.organization_id = y.organization_id ∧
        x.spot_id.isSome = true ∧ x.spot_id = y.spot_id ∧
        tstzrangeOverlap x.scheduled_start x.scheduled_end
          y.scheduled_start y.scheduled_end = true)) := by
  have key : ∀ d, Reachable d → d.Pairwise NoMutualConflict := by
    intro d hd
    induction hd with
    | empty => exact List.Pairwise.nil
    | insert db a _ hadm ih =>
      exact List.Pairwise.cons (rowAdmissible_noMutualConflict hadm) ih
    | update pre post a a' _ hadm ih =>
      have hmid := (List.pairwise_middle (fun h => noMutualConflict_symm h)).mp ih
      have htail : (pre ++ post).Pairwise NoMutualConflict := hmid.tail
      exact (List.pairwise_middle (fun h => noMutualConflict_symm h)).mpr
        (List.Pairwise.cons (rowAdmissible_noMutualConflict hadm) htail)
  refine List.Pairwise.imp ?_ (key db h)
  intro x y hxy
  constructor
  · intro hviol
    obtain ⟨hx, hy, horg, hsome, heq, hov⟩ := hviol
    have hcf : staffExclusionConflict x y = true := by
      unfold staffExclusionConflict staffRowGuarded
      simp [hx, hy, horg, hsome, hov, ← heq]
    rw [hxy.1] at hcf
    exact Bool.false_ne_true hcf
  · intro hviol
    obtain ⟨hx, hy, horg, hsome, heq, hov⟩ := hviol
    have hcf : spotExclusionConflict x y = true := by
      unfold spotExclusionConflict spotRowGuarded
      simp [hx, hy, horg, hsome, hov, ← heq]
    rw [hxy.2] at hcf
    exact Bool.false_ne_true hcf

/-- C2 witness: the state holding the two back-to-back appointments
`appt630` and `appt600` is reachable (both inserts pass the constraints),
and the invariant holds on it. -/
theorem c2_witness :
    Reachable [appt630, appt600] ∧
    List.Pairwise (fun x y =>
      ¬(x.status.isNonTerminal = true ∧ y.status.isNonTerminal = true ∧
        x.organization_id = y.organization_id ∧
        x.parlo_user_id.isSome = true ∧ x.parlo_user_id = y.parlo_user_id ∧
        tstzrangeOverlap x.scheduled_start x.scheduled_end
          y.scheduled_start y.scheduled_end = true) ∧
      ¬(x.status.isNonTerminal = true ∧ y.status.isNonTerminal = true ∧
        x.organization_id = y.organization_id ∧
        x.spot_id.isSome = true ∧ x.spot_id = y.spot_id ∧
        tstzrangeOverlap x.scheduled_start x.scheduled_end
          y.scheduled_start y.scheduled_end = true)) [appt630, appt600] :=
  have hreach : Reachable [appt630, appt600] :=
    Reachable.insert [appt600] appt630
      (Reachable.insert [] appt600 Reachable.empty (by decide)) (by decide)
  ⟨hreach, c2_reachable_no_overlap [appt630, appt600] hreach⟩

/-! ### Router state lemmas -/

@[simp] theorem store_message_snd (st : RouterState) (mid : String)
    (d : MessageDirection) (ty : MessageSenderType) (content : String)
    (cid : Option Nat) :
    (store_message st mid d ty content cid).2 =
      { st with messages :=
          { conversation_id := cid, direction := d, sender_type := ty,
            content := content, whatsapp_message_id := mid } :: st.messages } := rfl

@[simp] theorem send_text_message_parlo_users (st : RouterState) (a b c : String) :
    (send_text_message st a b c).parlo_users = st.parlo_users := rfl

@[simp] theorem send_text_message_messages (st : RouterState) (a b c : String) :
    (send_text_message st a b c).messages = st.messages := rfl

@[simp] theorem send_text_message_customers (st : RouterState) (a b c : String) :
    (send_text_message st a b c).customers = st.customers := rfl

@[simp] theorem send_text_message_sent (st : RouterState) (a b c : String) :
    (send_text_message st a b c).sent = st.sent ++ [⟨a, b, c⟩] := rfl

@[simp] theorem get_or_create_customer_parlo_users (st : RouterState) (o : Nat)
    (p : String) (n : Option String) :
    (get_or_create_customer st o p n).2.parlo_users = st.parlo_users := by
  unfold get_or_create_customer
  split <;> (try split) <;> rfl

@[simp] theorem get_or_create_customer_messages (st : RouterState) (o : Nat)
    (p : String) (n : Option String) :
    (get_or_create_customer st o p n).2.messages = st.messages := by
  unfold get_or_create_customer
  split <;> (try split) <;> rfl

@[simp] theorem get_or_create_customer_sent (st : RouterState) (o : Nat)
    (p : String) (n : Option String) :
    (get_or_create_customer st o p n).2.sent = st.sent := by
  unfold get_or_create_customer
  split <;> (try split) <;> rfl

@[simp] theorem get_or_create_conversation_parlo_users (st : RouterState) (o c : Nat) :
    (get_or_create_conversation st o c).2.parlo_users = st.parlo_users := by
  unfold get_or_create_conversation
  split <;> rfl

@[simp] theorem get_or_create_conversation_messages (st : RouterState) (o c : Nat) :
    (get_or_create_conversation st o c).2.messages = st.messages := by
  unfold get_or_create_conversation
  split <;> rfl

@[simp] theorem get_or_create_conversation_sent (st : RouterState) (o c : Nat) :
    (get_or_create_conversation st o c).2.sent = st.sent := by
  unfold get_or_create_conversation
  split <;> rfl

@[simp] theorem get_or_create_conversation_customers (st : RouterState) (o c : Nat) :
    (get_or_create_conversation st o c).2.customers = st.customers := by
  unfold get_or_create_conversation
  split <;> rfl

@[simp] theorem handle_staff_message_parlo_users (st : RouterState) (u : ParloUser)
    (mc sp mid : String) :
    (handle_staff_message st u mc sp mid).2.parlo_users = st.parlo_users := rfl

@[simp] theorem handle_staff_message_customers (st : RouterState) (u : ParloUser)
    (mc sp mid : String) :
    (handle_staff_message st u mc sp mid).2.customers = st.customers := rfl

@[simp] theorem handle_staff_message_sent (st : RouterState) (u : ParloUser)
    (mc sp mid : String) :
    (handle_staff_message st u mc sp mid).2.sent = st.sent := rfl

@[simp] theorem handle_staff_message_messages (st : RouterState) (u : ParloUser)
    (mc sp mid : String) :
    (handle_staff_message st u mc sp mid).2.messages =
      { conversation_id := none, direction := MessageDirection.inbound,
        sender_type := MessageSenderType.staff, content := mc,
        whatsapp_message_id := mid } :: st.messages := rfl

@[simp] theorem handle_customer_message_parlo_users (st : RouterState)
    (org : Organization) (c : EndCustomer) (mc sp mid : String) :
    (handle_customer_message st org c mc sp mid).2.parlo_users = st.parlo_users := by
  unfold handle_customer_message
  simp

@[simp] theorem handle_customer_message_customers (st : RouterState)
    (org : Organization) (c : EndCustomer) (mc sp mid : String) :
    (handle_customer_message st org c mc sp mid).2.customers = st.customers := by
  unfold handle_customer_message
  simp

@[simp] theorem handle_customer_message_sent (st : RouterState)
    (org : Organization) (c : EndCustomer) (mc sp mid : String) :
    (handle_customer_message st org c mc sp mid).2.sent = st.sent := by
  unfold handle_customer_message
  simp

@[simp] theorem handle_customer_message_messages (st : RouterState)
    (org : Organization) (c : EndCustomer) (mc sp mid : String) :
    (handle_customer_message st org c mc sp mid).2.messages =
      { conversation_id :=
          some (get_or_create_conversation st org.id c.id).1.id,
        direction := MessageDirection.inbound,
        sender_type := MessageSenderType.customer, content := mc,
        whatsapp_message_id := mid } :: st.messages := by
  unfold handle_customer_message
  simp

/-- After a processed (non-duplicate, known-organization) call, the count
of stored messages carrying the id grows by exactly one. -/
theorem route_message_countP (st : RouterState)
    (pnid phone mid content : String) (nm : Option String) (org : Organization)
    (hdup : message_already_processed st mid = false)
    (horg : get_organization_by_whatsapp_phone_id st pnid = some org) :
    ((route_message st pnid phone mid content nm).2).messages.countP
        (fun m => m.whatsapp_message_id == mid) =
      st.messages.countP (fun m => m.whatsapp_message_id == mid) + 1 := by
  unfold route_message
  cases hstaff : get_staff_by_phone st org.id phone with
  | some staff =>
    by_cases hact : staff.is_active = true
    · simp [hdup, horg, hstaff, hact, List.countP_cons]
    · simp [hdup, horg, hstaff, hact, List.countP_cons]
  | none => simp [hdup, horg, hstaff, List.countP_cons]

/-- After a processed call the message id is recorded. -/
theorem route_message_marks_processed (st : RouterState)
    (pnid phone mid content : String) (nm : Option String) (org : Organization)
    (hdup : message_already_processed st mid = false)
    (horg : get_organization_by_whatsapp_phone_id st pnid = some org) :
    message_already_processed ((route_message st pnid phone mid content nm).2) mid = true := by
  unfold route_message
  simp only [hdup, horg]
  cases hstaff : get_staff_by_phone st org.id phone with
  | some staff =>
    by_cases hact : staff.is_active = true
    · simp [hstaff, hact, message_already_processed]
    · simp [hstaff, hact, message_already_processed]
  | none => simp [hstaff, message_already_processed]

/-- A processed call appends exactly one outbound send and reports
success. -/
theorem route_message_one_send (st : RouterState)
    (pnid phone mid content : String) (nm : Option String) (org : Organization)
    (hdup : message_already_processed st mid = false)
    (horg : get_organization_by_whatsapp_phone_id st pnid = some org) :
    ((route_message st pnid phone mid content nm).2).sent.length =
        st.sent.length + 1 ∧
    ((route_message st pnid phone mid content nm).1).status = "success" := by
  unfold route_message
  cases hstaff : get_staff_by_phone st org.id phone with
  | some staff =>
    by_cases hact : staff.is_active = true
    · simp [hdup, horg, hstaff, hact, RouteResult.status]
    · simp [hdup, horg, hstaff, hact, RouteResult.status]
  | none => simp [hdup, horg, hstaff, RouteResult.status]

theorem get_or_create_customer_spec (st : RouterState) (o : Nat) (p : String)
    (n : Option String) :
    (get_or_create_customer st o p n).1.organization_id = o ∧
    (get_or_create_customer st o p n).1.phone_number = p ∧
    (get_or_create_customer st o p n).1 ∈ (get_or_create_customer st o p n).2.customers := by
  unfold get_or_create_customer
  cases hf : st.customers.find? (fun c => c.organization_id == o && c.phone_number == p) with
  | none => simp
  | some c =>
    have hc := List.find?_some hf
    have hcmem := List.mem_of_find?_eq_some hf
    simp only [Bool.and_eq_true, beq_iff_eq] at hc
    by_cases hname : (c.name.isNone && n.isSome) = true
    · simp only [hname, if_true]
      refine ⟨hc.1, hc.2, ?_⟩
      exact List.mem_map.mpr ⟨c, hcmem, by simp⟩
    · simp only [hname, if_false]
      exact ⟨hc.1, hc.2, hcmem⟩

/-! ### C4 — deduplication idempotence -/

/-- C4: once a first `route_message` call has processed and stored an
inbound message of a known organization, any second call carrying the
same message id — whatever its other arguments and whatever handlers are
installed — returns the `"duplicate"` result, leaves the state completely
unchanged (so no handler runs, nothing is sent, nothing is stored), and
the state holds exactly one stored `Message` with that
`whatsapp_message_id`. -/
theorem c4_route_message_duplicate_idempotent
    (st : RouterState) (pnid phone mid content : String) (nm : Option String)
    (pnid2 phone2 content2 : String) (nm2 : Option String)
    (staffH : RouterState → Organization → ParloUser → String → String → String →
      Except String (String × RouterState))
    (custH : RouterState → Organization → EndCustomer → String → String → String →
      Except String (String × RouterState))
    (org : Organization)
    (hdup : message_already_processed st mid = false)
    (horg : get_organization_by_whatsapp_phone_id st pnid = some org) :
    ((route_message st pnid phone mid content nm).2).messages.countP
        (fun m => m.whatsapp_message_id == mid) = 1 ∧
    route_message ((route_message st pnid phone mid content nm).2)
        pnid2 phone2 mid content2 nm2 =
      (RouteResult.duplicate mid, (route_message st pnid phone mid content nm).2) ∧
    route_message_with staffH custH ((route_message st pnid phone mid content nm).2)
        pnid2 phone2 mid content2 nm2 =
      Except.ok (RouteResult.duplicate mid,
        (route_message st pnid phone mid content nm).2) := by
  have hzero : st.messages.countP (fun m => m.whatsapp_message_id == mid) = 0 := by
    rw [List.countP_eq_zero]
    intro m hm
    have h := hdup
    unfold message_already_processed at h
    rw [List.any_eq_false] at h
    exact h m hm
  have hmark := route_message_marks_processed st pnid phone mid content nm org hdup horg
  have hcount := route_message_countP st pnid phone mid content nm org hdup horg
  refine ⟨by rw [hcount, hzero], ?_, ?_⟩
  · have h := hmark
    generalize hg : (route_message st pnid phone mid content nm).2 = st1 at h ⊢
    unfold route_message
    simp [h]
  · have h := hmark
    generalize hg : (route_message st pnid phone mid content nm).2 = st1 at h ⊢
    unfold route_message_with
    simp [h]

/-- C4 witness: the theorem at the concrete state `stOrg`, with the staff
member Pedro messaging `wamid_1` twice and the source handlers installed. -/
theorem c4_witness :
    (message_already_processed stOrg "wamid_1" = false ∧
      get_organization_by_whatsapp_phone_id stOrg "PNID_10" = some orgFixture) ∧
    (((route_message stOrg "PNID_10" "+525511122233" "wamid_1" "Mi agenda" none).2).messages.countP
        (fun m => m.whatsapp_message_id == "wamid_1") = 1 ∧
      route_message
          ((route_message stOrg "PNID_10" "+525511122233" "wamid_1" "Mi agenda" none).2)
          "PNID_10" "+525511122233" "wamid_1" "Mi agenda" none =
        (RouteResult.duplicate "wamid_1",
          (route_message stOrg "PNID_10" "+525511122233" "wamid_1" "Mi agenda" none).2) ∧
      route_message_with
          (fun s _ u mc sp mi => Except.ok (handle_staff_message s u mc sp mi))
          (fun s o c mc sp mi => Except.ok (handle_customer_message s o c mc sp mi))
          ((route_message stOrg "PNID_10" "+525511122233" "wamid_1" "Mi agenda" none).2)
          "PNID_10" "+525511122233" "wamid_1" "Mi agenda" none =
        Except.ok (RouteResult.duplicate "wamid_1",
          (route_message stOrg "PNID_10" "+525511122233" "wamid_1" "Mi agenda" none).2)) :=
  ⟨⟨rfl, rfl⟩,
   c4_route_message_duplicate_idempotent stOrg "PNID_10" "+525511122233" "wamid_1"
     "Mi agenda" none "PNID_10" "+525511122233" "Mi agenda" none
     (fun s _ u mc sp mi => Except.ok (handle_staff_message s u mc sp mi))
     (fun s o c mc sp mi => Except.ok (handle_customer_message s o c mc sp mi))
     orgFixture rfl rfl⟩

/-! ### C5 — unknown tenant channel -/

/-- C5 (code behaviour at the failing input): with no organization mapping
the channel id, `route_message` returns the
`{"status": "error", "reason": "unknown_organization"}` dict — an
error-status result, not a routing to any onboarding flow (the router of
the snapshot has no onboarding handler at all), contradicting the claim
and the expectations of
`src/tests/test_onboarding/test_message_router_onboarding.py`. -/
theorem c5_unknown_channel_returns_error :
    message_already_processed stEmpty "test_msg_001" = false ∧
    get_organization_by_whatsapp_phone_id stEmpty "PARLO_CENTRAL_ID" = none ∧
    route_message stEmpty "PARLO_CENTRAL_ID" "+525551234567" "test_msg_001"
        "Hola, quiero registrar mi negocio" (some "Carlos") =
      (RouteResult.error "unknown_organization" "PARLO_CENTRAL_ID", stEmpty) ∧
    (route_message stEmpty "PARLO_CENTRAL_ID" "+525551234567" "test_msg_001"
        "Hola, quiero registrar mi negocio" (some "Carlos")).1.status = "error" :=
  ⟨rfl, rfl, rfl, rfl⟩

/-! ### C6 — inactive staff resolve as customers -/

/-- C6: when the only staff record of (organization, phone) is inactive,
the active-only staff lookup returns none, `route_message` takes the
customer path (reporting `sender_type = "customer"`), and a customer with
that organization and phone exists in the resulting state (looked up or
created — the inactive staff record blocks nothing). -/
theorem c6_inactive_staff_is_customer
    (st : RouterState) (pnid phone mid content : String) (nm : Option String)
    (org : Organization) (u : ParloUser)
    (hdup : message_already_processed st mid = false)
    (horg : get_organization_by_whatsapp_phone_id st pnid = some org)
    (hu : u ∈ st.parlo_users) (huorg : u.organization_id = org.id)
    (huphone : u.phone_number = phone) (hinact : u.is_active = false)
    (huniq : ∀ v ∈ st.parlo_users,
      v.organization_id = org.id → v.phone_number = phone → v = u) :
    get_staff_by_phone st org.id phone = none ∧
    (route_message st pnid phone mid content nm).1 =
      RouteResult.success "customer" org.id ∧
    ∃ c ∈ (route_message st pnid phone mid content nm).2.customers,
      c.organization_id = org.id ∧ c.phone_number = phone := by
  have hstaff : get_staff_by_phone st org.id phone = none := by
    unfold get_staff_by_phone
    rw [List.find?_eq_none]
    intro v hv
    by_cases h1 : v.organization_id = org.id
    · by_cases h2 : v.phone_number = phone
      · have hveq : v = u := huniq v hv h1 h2
        subst hveq
        simp [h1, h2, hinact]
      · simp [h2]
    · simp [h1]
  have hspec := get_or_create_customer_spec st org.id phone nm
  refine ⟨hstaff, ?_, ?_⟩
  · unfold route_message
    simp [hdup, horg, hstaff, MessageSenderType.value]
  · unfold route_message
    simp only [hdup, horg, hstaff]
    simp only [Bool.false_eq_true, if_false]
    refine ⟨(get_or_create_customer st org.id phone nm).1, ?_, hspec.1, hspec.2.1⟩
    simp [hspec.2.2]

/-- C6 witness: the theorem at `stOrg` for the inactive staff member Ana's
phone. -/
theorem c6_witness :
    (message_already_processed stOrg "wamid_6" = false ∧
      get_organization_by_whatsapp_phone_id stOrg "PNID_10" = some orgFixture ∧
      staffInactiveAna ∈ stOrg.parlo_users ∧
      staffInactiveAna.organization_id = orgFixture.id ∧
      staffInactiveAna.phone_number = "+525599988877" ∧
      staffInactiveAna.is_active = false) ∧
    (get_staff_by_phone stOrg orgFixture.id "+525599988877" = none ∧
      (route_message stOrg "PNID_10" "+525599988877" "wamid_6" "Hola" (some "Ana")).1 =
        RouteResult.success "customer" orgFixture.id ∧
      ∃ c ∈ (route_message stOrg "PNID_10" "+525599988877" "wamid_6" "Hola"
          (some "Ana")).2.customers,
        c.organization_id = orgFixture.id ∧ c.phone_number = "+525599988877") :=
  ⟨⟨rfl, rfl, by decide, rfl, rfl, rfl⟩,
   c6_inactive_staff_is_customer stOrg "PNID_10" "+525599988877" "wamid_6" "Hola"
     (some "Ana") orgFixture staffInactiveAna rfl rfl (by decide) rfl rfl rfl
     (by decide)⟩

/-! ### C8 — exactly-one-send and exception handling -/

/-- C8 (amended): for a non-duplicate inbound message, (a) when the
channel id maps to no organization, `route_message` returns the
error-status dict and performs no outbound send; (b) when it maps to an
organization, exactly one outbound send happens and a success result is
returned (the source handlers are total); but (c)/(d) handler exceptions
are **not** caught at any router boundary: a failing staff or customer
handler makes `route_message` propagate the exception, with no fallback
text sent and no error-status result. -/
theorem c8_amended_send_behaviour
    (st : RouterState) (pnid phone mid content : String) (nm : Option String)
    (staffH : RouterState → Organization → ParloUser → String → String → String →
      Except String (String × RouterState))
    (custH : RouterState → Organization → EndCustomer → String → String → String →
      Except String (String × RouterState))
    (e : String)
    (hdup : message_already_processed st mid = false) :
    (get_organization_by_whatsapp_phone_id st pnid = none →
      route_message st pnid phone mid content nm =
        (RouteResult.error "unknown_organization" pnid, st)) ∧
    (∀ org, get_organization_by_whatsapp_phone_id st pnid = some org →
      ((route_message st pnid phone mid content nm).2).sent.length =
          st.sent.length + 1 ∧
      ((route_message st pnid phone mid content nm).1).status = "success") ∧
    (∀ org staff, get_organization_by_whatsapp_phone_id st pnid = some org →
      get_staff_by_phone st org.id phone = some staff →
      staff.is_active = true →
      staffH st org staff content phone mid = Except.error e →
      route_message_with staffH custH st pnid phone mid content nm =
        Except.error e) ∧
    (∀ org, get_organization_by_whatsapp_phone_id st pnid = some org →
      get_staff_by_phone st org.id phone = none →
      custH (get_or_create_customer st org.id phone nm).2 org
          (get_or_create_customer st org.id phone nm).1 content phone mid =
        Except.error e →
      route_message_with staffH custH st pnid phone mid content nm =
        Except.error e) := by
  refine ⟨?_, ?_, ?_, ?_⟩
  · intro hnone
    unfold route_message
    simp [hdup, hnone]
  · intro org horg
    exact route_message_one_send st pnid phone mid content nm org hdup horg
  · intro org staff horg hstaff hact herr
    unfold route_message_with
    simp [hdup, horg, hstaff, hact, herr]
  · intro org horg hstaff herr
    unfold route_message_with
    simp [hdup, horg, hstaff, herr]

/-- C8 witness: the amended theorem at `stOrg` with always-failing
handlers. -/
theorem c8_witness :
    message_already_processed stOrg "wamid_8" = false ∧
    ((get_organization_by_whatsapp_phone_id stOrg "NOBODY" = none →
        route_message stOrg "NOBODY" "+525500000000" "wamid_8" "Hola" none =
          (RouteResult.error "unknown_organization" "NOBODY", stOrg)) ∧
      (∀ org, get_organization_by_whatsapp_phone_id stOrg "NOBODY" = some org →
        ((route_message stOrg "NOBODY" "+525500000000" "wamid_8" "Hola" none).2).sent.length =
            stOrg.sent.length + 1 ∧
        ((route_message stOrg "NOBODY" "+525500000000" "wamid_8" "Hola" none).1).status =
          "success") ∧
      (∀ org staff, get_organization_by_whatsapp_phone_id stOrg "NOBODY" = some org →
        get_staff_by_phone stOrg org.id "+525500000000" = some staff →
        staff.is_active = true →
        (fun _ _ _ _ _ _ => (Except.error "boom" : Except String (String × RouterState)))
            stOrg org staff "Hola" "+525500000000" "wamid_8" = Except.error "boom" →
        route_message_with
            (fun _ _ _ _ _ _ => (Except.error "boom" : Except String (String × RouterState)))
            (fun _ _ _ _ _ _ => (Except.error "boom" : Except String (String × RouterState)))
            stOrg "NOBODY" "+525500000000" "wamid_8" "Hola" none = Except.error "boom") ∧
      (∀ org, get_organization_by_whatsapp_phone_id stOrg "NOBODY" = some org →
        get_staff_by_phone stOrg org.id "+525500000000" = none →
        (fun _ _ _ _ _ _ => (Except.error "boom" : Except String (String × RouterState)))
            (get_or_create_customer stOrg org.id "+525500000000" none).2 org
            (get_or_create_customer stOrg org.id "+525500000000" none).1
            "Hola" "+525500000000" "wamid_8" = Except.error "boom" →
        route_message_with
            (fun _ _ _ _ _ _ => (Except.error "boom" : Except String (String × RouterState)))
            (fun _ _ _ _ _ _ => (Except.error "boom" : Except String (String × RouterState)))
            stOrg "NOBODY" "+525500000000" "wamid_8" "Hola" none = Except.error "boom")) :=
  ⟨rfl,
   c8_amended_send_behaviour stOrg "NOBODY" "+525500000000" "wamid_8" "Hola" none
     (fun _ _ _ _ _ _ => Except.error "boom")
     (fun _ _ _ _ _ _ => Except.error "boom") "boom" rfl⟩

/-- C8 counterexample: the fresh (non-duplicate) message `m1` to the
unknown channel `UNKNOWN_NUMBER_ID` is processed by `route_message` —
which returns an error-status result — with **zero** outbound sends, not
exactly one. -/
theorem c8_counterexample :
    message_already_processed stEmpty "m1" = false ∧
    (route_message stEmpty "UNKNOWN_NUMBER_ID" "+525511112222" "m1" "Hola" none).1.status =
      "error" ∧
    (route_message stEmpty "UNKNOWN_NUMBER_ID" "+525511112222" "m1" "Hola" none).2.sent.length =
      0 :=
  ⟨rfl, rfl, rfl⟩

/-! ### C9 — `first_message_at` is never set by routing -/

/-- C9 (code behaviour): `route_message` never modifies any `ParloUser`
row — in particular it never sets `first_message_at`. Concretely, when the
active staff member Pedro (whose `first_message_at` is null) sends his
first-ever message, the call resolves him as staff yet leaves his
`first_message_at` null, contrary to the claim (and to the documented
purpose of the column in `src/app/models/parlo_user.py`). -/
theorem c9_routing_never_sets_first_message_at :
    (∀ (st : RouterState) (pnid phone mid content : String) (nm : Option String),
      (route_message st pnid phone mid content nm).2.parlo_users = st.parlo_users) ∧
    (route_message stOrg "PNID_10" "+525511122233" "wamid_9" "Mi agenda" none).1 =
      RouteResult.success "staff" 10 ∧
    staffPedro.first_message_at = none ∧
    (route_message stOrg "PNID_10" "+525511122233" "wamid_9" "Mi agenda" none).2.parlo_users =
      [staffPedro, staffInactiveAna] := by
  refine ⟨?_, rfl, rfl, rfl⟩
  intro st pnid phone mid content nm
  unfold route_message
  by_cases hdup : message_already_processed st mid = true
  · simp [hdup]
  · cases horg : get_organization_by_whatsapp_phone_id st pnid with
    | none => simp [hdup, horg]
    | some org =>
      cases hstaff : get_staff_by_phone st org.id phone with
      | some staff =>
        by_cases hact : staff.is_active = true
        · simp [hdup, horg, hstaff, hact]
        · simp [hdup, horg, hstaff, hact]
      | none => simp [hdup, horg, hstaff]

end Parlo
